import Mathlib

/-
Verification development for the mobile IO adapter
(include/hebi_cpp_api/util/mobile_io.hpp).

The repository ships only the header: the class declaration, the enums, the
compile time sizing constant, the member initializers and a few inline
bodies.  Definitions below that embed those parts cite the header.  Method
bodies that live outside the shipped sources (update, the accessors, the
command setters, the layout sends) are modelled from the specification text
and are marked as such in their doc comments.
-/

set_option autoImplicit false

namespace HebiMobile

/-- Number of buttons and axes on the mobile IO screen, from the header:
static constexpr size_t NumButtons = 8.  The same constant sizes the button
bit vector and the axis float array. -/
def NumButtons : Nat := 8

/-- Per button configuration mode, from the header enum ButtonMode. -/
inductive ButtonMode where
  | Momentary
  | Toggle
  deriving DecidableEq

/-- Edge transition between the last and the current state of a button, from
the header enum ButtonState. -/
inductive ButtonState where
  | ToOff
  | Unchanged
  | ToOn
  deriving DecidableEq

/-- Abstract model of a C++ float value: either the quiet NaN sentinel or an
ordinary numeric value.  The claims use NaN only as a distinguished sentinel
for disabling axis snap, never through floating point arithmetic, so the
abstraction carries all the structure they need. -/
inductive F32 where
  | nan
  | val (q : ℚ)
  deriving DecidableEq

/-- Modelled from the spec: one feedback snapshot received from the device
(handle.requestFeedback).  Each named digital or analog field may be absent
(none); the AR pose fields are carried opaquely.  The header stores the
latest feedback in the member fbk_, a hebi::GroupFeedback whose accessors are
declared outside the shipped sources. -/
structure Feedback where
  digital : List (Option Bool)
  analog : List (Option F32)
  arPosition : F32 × F32 × F32
  arOrientation : F32 × F32 × F32 × F32
  digital_len : digital.length = NumButtons
  analog_len : analog.length = NumButtons

/-- State cache of the adapter, from the header members buttons_, axes_,
prev_buttons_, prev_axes_ (std::bitset of size NumButtons and std::array of
float of size NumButtons) together with the stored feedback fbk_.  The fixed
sizes of the C++ types become length invariants on the lists. -/
structure MobileIOState where
  buttons : List Bool
  axes : List F32
  prev_buttons : List Bool
  prev_axes : List F32
  fbk : Feedback
  buttons_len : buttons.length = NumButtons
  axes_len : axes.length = NumButtons
  prev_buttons_len : prev_buttons.length = NumButtons
  prev_axes_len : prev_axes.length = NumButtons

/-- Modelled from the spec: the stored feedback before any poll holds no
named fields and a zero AR pose. -/
def emptyFeedback : Feedback :=
  { digital := List.replicate NumButtons none
    analog := List.replicate NumButtons none
    arPosition := (F32.val 0, F32.val 0, F32.val 0)
    arOrientation := (F32.val 0, F32.val 0, F32.val 0, F32.val 0)
    digital_len := by simp
    analog_len := by simp }

/-- Initial adapter state, from the header member initializers buttons_{},
axes_{}, prev_buttons_{} and prev_axes_{}: value initialization zeroes the
bitset and the float array in both snapshots. -/
def init : MobileIOState :=
  { buttons := List.replicate NumButtons false
    axes := List.replicate NumButtons (F32.val 0)
    prev_buttons := List.replicate NumButtons false
    prev_axes := List.replicate NumButtons (F32.val 0)
    fbk := emptyFeedback
    buttons_len := by simp
    axes_len := by simp
    prev_buttons_len := by simp
    prev_axes_len := by simp }

/-- Modelled from the spec: overwrite one snapshot list from the named fields
of a feedback; a field absent from the feedback (none) leaves the prior entry
unchanged, never resetting it to a default. -/
def mergeField {α : Type} (old : List α) (fresh : List (Option α)) : List α :=
  List.zipWith (fun o f => f.getD o) old fresh

theorem mergeField_length {α : Type} (old : List α) (fresh : List (Option α)) :
    (mergeField old fresh).length = min old.length fresh.length := by
  simp [mergeField]

/-- Modelled from the spec: update(timeout_ms) requests one feedback snapshot
from the group, here passed in as an Option with none standing for a timeout
or missing feedback.  On timeout the call returns false and every member is
left untouched; on success it rotates current into previous, overwrites
current from the named fields of the feedback, stores the feedback, and
returns true. -/
def update (st : MobileIOState) (received : Option Feedback) :
    Bool × MobileIOState :=
  match received with
  | none => (false, st)
  | some f =>
    (true,
      { buttons := mergeField st.buttons f.digital
        axes := mergeField st.axes f.analog
        prev_buttons := st.buttons
        prev_axes := st.axes
        fbk := f
        buttons_len := by
          rw [mergeField_length, st.buttons_len, f.digital_len]
          exact Nat.min_self _
        axes_len := by
          rw [mergeField_length, st.axes_len, f.analog_len]
          exact Nat.min_self _
        prev_buttons_len := st.buttons_len
        prev_axes_len := st.axes_len })

/-- Modelled from the spec: getAxis is a direct read of the current snapshot
at internal index axis - 1, one indexed at the API boundary.  The method is
declared const in the header, so it returns the state unchanged. -/
def getAxis (st : MobileIOState) (axis : Nat) : F32 × MobileIOState :=
  (st.axes.getD (axis - 1) F32.nan, st)

/-- Modelled from the spec: getButton is a direct read of the current
snapshot at internal index button - 1, one indexed at the API boundary.
Declared const in the header. -/
def getButton (st : MobileIOState) (button : Nat) : Bool × MobileIOState :=
  (st.buttons.getD (button - 1) false, st)

/-- Modelled from the spec: getButtonDiff compares the bit at internal index
button - 1 in the current and the previous snapshot; equal bits give
Unchanged, a rise gives ToOn and a fall gives ToOff.  Declared const in the
header. -/
def getButtonDiff (st : MobileIOState) (button : Nat) :
    ButtonState × MobileIOState :=
  let c := st.buttons.getD (button - 1) false
  let p := st.prev_buttons.getD (button - 1) false
  (if p = c then ButtonState.Unchanged
   else if c then ButtonState.ToOn
   else ButtonState.ToOff, st)

/-- Inline body from the header: returns fbk_[0], the stored device feedback.
Declared const. -/
def getLastFeedback (st : MobileIOState) : Feedback × MobileIOState :=
  (st.fbk, st)

/-- Inline body from the header: returns the AR position field of the stored
feedback.  Declared const. -/
def getArPosition (st : MobileIOState) : (F32 × F32 × F32) × MobileIOState :=
  (st.fbk.arPosition, st)

/-- Inline body from the header: returns the AR orientation field of the
stored feedback.  Declared const. -/
def getArOrientation (st : MobileIOState) :
    (F32 × F32 × F32 × F32) × MobileIOState :=
  (st.fbk.arOrientation, st)

/-- Modelled from the spec: a single recipient outgoing command, a sparse
superset of optional named fields; only the explicitly set fields are
transmitted and unset fields must not perturb device state. -/
structure Command where
  axisSnap : Option (Nat × F32)
  axisValue : Option (Nat × F32)
  axisLabel : Option (Nat × String)
  buttonMode : Option (Nat × ButtonMode)
  buttonLed : Option (Nat × Bool)
  buttonLabel : Option (Nat × String)
  ledColor : Option (Nat × Nat × Nat)
  appendedText : Option String
  clearTextFlag : Bool
  resetUIFlag : Bool
  layout : Option String
  deriving DecidableEq

/-- Command with no field set. -/
def emptyCmd : Command :=
  ⟨none, none, none, none, none, none, none, none, false, false, none⟩

/-- Modelled from the spec: the external transport collaborator.  accepted
says whether a message is accepted for transmission; ackWithin says whether
the device acknowledgment for a command arrives within the given timeout;
readFile is the local resource read used by sendLayout; defaultTimeoutMs is
the default bound the command setters pass to dispatch. -/
structure Env where
  accepted : Command → Bool
  ackWithin : Command → Nat → Bool
  readFile : String → Option String
  defaultTimeoutMs : Nat

/-- Modelled from the spec: dispatch of one command through the group.  With
acknowledgment required the call blocks up to the timeout and returns true
only when the message went out and the acknowledgment arrived in time;
without it the call is fire and forget and returns bare acceptance for
transmission. -/
def sendCommand (env : Env) (cmd : Command) (ackRequired : Bool)
    (timeoutMs : Nat) : Bool :=
  if ackRequired then env.accepted cmd && env.ackWithin cmd timeoutMs
  else env.accepted cmd

/-- Command built by setAxisSnap: only the per axis snap field is set. -/
def axisSnapCmd (axis : Nat) (snapTo : F32) : Command :=
  { emptyCmd with axisSnap := some (axis, snapTo) }

/-- Command built by setAxisValue: only the per axis value field is set. -/
def axisValueCmd (axis : Nat) (value : F32) : Command :=
  { emptyCmd with axisValue := some (axis, value) }

/-- Command built by setAxisLabel: only the per axis label field is set. -/
def axisLabelCmd (axis : Nat) (message : String) : Command :=
  { emptyCmd with axisLabel := some (axis, message) }

/-- Command built by setButtonMode: only the per button mode field is set. -/
def buttonModeCmd (button : Nat) (mode : ButtonMode) : Command :=
  { emptyCmd with buttonMode := some (button, mode) }

/-- Command built by setButtonLed: only the per button led field is set. -/
def buttonLedCmd (button : Nat) (ledOn : Bool) : Command :=
  { emptyCmd with buttonLed := some (button, ledOn) }

/-- Command built by setButtonLabel: only the per button label field is
set. -/
def buttonLabelCmd (button : Nat) (message : String) : Command :=
  { emptyCmd with buttonLabel := some (button, message) }

/-- Command built by setLedColor: only the led color field is set. -/
def ledColorCmd (r g b : Nat) : Command :=
  { emptyCmd with ledColor := some (r, g, b) }

/-- Command built by appendText: only the appended text field is set. -/
def appendTextCmd (message : String) : Command :=
  { emptyCmd with appendedText := some message }

/-- Command built by clearText: only the clear text directive is set. -/
def clearTextCmd : Command :=
  { emptyCmd with clearTextFlag := true }

/-- Command built by resetUI: only the reset directive is set. -/
def resetUICmd : Command :=
  { emptyCmd with resetUIFlag := true }

/-- Command built by the layout sends: only the opaque layout payload is
set. -/
def layoutCmd (buffer : String) : Command :=
  { emptyCmd with layout := some buffer }

/-- Modelled from the spec: setAxisSnap builds a command whose only set field
is the snap float for the given axis and dispatches it with the default
timeout.  The Bool is the call result; the list records the commands handed
to the transport. -/
def setAxisSnap (env : Env) (axis : Nat) (snapTo : F32) (ackSend : Bool) :
    Bool × List Command :=
  (sendCommand env (axisSnapCmd axis snapTo) ackSend env.defaultTimeoutMs,
   [axisSnapCmd axis snapTo])

/-- Inline body from the header: disableAxisSnap(axis, ack) returns
setAxisSnap(axis, quiet NaN, ack). -/
def disableAxisSnap (env : Env) (axis : Nat) (ackSend : Bool) :
    Bool × List Command :=
  setAxisSnap env axis F32.nan ackSend

/-- Modelled from the spec: setAxisValue sets only the per axis value field
and dispatches. -/
def setAxisValue (env : Env) (axis : Nat) (value : F32) (ackSend : Bool) :
    Bool × List Command :=
  (sendCommand env (axisValueCmd axis value) ackSend env.defaultTimeoutMs,
   [axisValueCmd axis value])

/-- Modelled from the spec: setAxisLabel sets only the per axis label field
and dispatches. -/
def setAxisLabel (env : Env) (axis : Nat) (message : String) (ackSend : Bool) :
    Bool × List Command :=
  (sendCommand env (axisLabelCmd axis message) ackSend env.defaultTimeoutMs,
   [axisLabelCmd axis message])

/-- Modelled from the spec: setButtonMode sets only the per button mode field
and dispatches. -/
def setButtonMode (env : Env) (button : Nat) (mode : ButtonMode)
    (ackSend : Bool) : Bool × List Command :=
  (sendCommand env (buttonModeCmd button mode) ackSend env.defaultTimeoutMs,
   [buttonModeCmd button mode])

/-- Modelled from the spec: setButtonLed sets only the per button led field
and dispatches. -/
def setButtonLed (env : Env) (button : Nat) (ledOn : Bool) (ackSend : Bool) :
    Bool × List Command :=
  (sendCommand env (buttonLedCmd button ledOn) ackSend env.defaultTimeoutMs,
   [buttonLedCmd button ledOn])

/-- Modelled from the spec: setButtonLabel sets only the per button label
field and dispatches. -/
def setButtonLabel (env : Env) (button : Nat) (message : String)
    (ackSend : Bool) : Bool × List Command :=
  (sendCommand env (buttonLabelCmd button message) ackSend env.defaultTimeoutMs,
   [buttonLabelCmd button message])

/-- Modelled from the spec: setLedColor sets only the led color field and
dispatches. -/
def setLedColor (env : Env) (r g b : Nat) (ackSend : Bool) :
    Bool × List Command :=
  (sendCommand env (ledColorCmd r g b) ackSend env.defaultTimeoutMs,
   [ledColorCmd r g b])

/-- Modelled from the spec: appendText sets only the appended text field and
dispatches. -/
def appendText (env : Env) (message : String) (ackSend : Bool) :
    Bool × List Command :=
  (sendCommand env (appendTextCmd message) ackSend env.defaultTimeoutMs,
   [appendTextCmd message])

/-- Modelled from the spec: clearText sets only the clear text directive and
dispatches. -/
def clearText (env : Env) (ackSend : Bool) : Bool × List Command :=
  (sendCommand env clearTextCmd ackSend env.defaultTimeoutMs, [clearTextCmd])

/-- Modelled from the spec: resetUI sends a reset directive under the same
acknowledged or unacknowledged contract. -/
def resetUI (env : Env) (ackSend : Bool) : Bool × List Command :=
  (sendCommand env resetUICmd ackSend env.defaultTimeoutMs, [resetUICmd])

/-- Modelled from the spec: sendLayoutBuffer packages the buffer as the
opaque layout payload of a command and performs an acknowledgment required
send bounded by the timeout.  Declared const in the header, so the state is
returned unchanged. -/
def sendLayoutBuffer (env : Env) (st : MobileIOState) (buffer : String)
    (timeoutMs : Nat) : (Bool × List Command) × MobileIOState :=
  ((sendCommand env (layoutCmd buffer) true timeoutMs, [layoutCmd buffer]), st)

/-- Modelled from the spec: sendLayout reads the layout resource at the given
path; when the read fails it returns false without attempting any send,
otherwise it behaves as sendLayoutBuffer on the bytes read.  Declared const
in the header. -/
def sendLayout (env : Env) (st : MobileIOState) (layoutFile : String)
    (timeoutMs : Nat) : (Bool × List Command) × MobileIOState :=
  match env.readFile layoutFile with
  | none => ((false, []), st)
  | some buf => sendLayoutBuffer env st buf timeoutMs

/-- Result contract of a dispatched command: with acknowledgment required, a
true result implies the acknowledgment arrived within the timeout; without
it, a true result is exactly acceptance for transmission. -/
def ackContract (env : Env) (timeoutMs : Nat) (cmd : Command) (ackSend : Bool)
    (result : Bool) : Prop :=
  (ackSend = true → (result = true → env.ackWithin cmd timeoutMs = true)) ∧
  (ackSend = false → (result = true ↔ env.accepted cmd = true))

/-- Reading a merged snapshot entry inside the common bounds: the entry is
the fresh field value when present, the old entry otherwise. -/
theorem mergeField_getD {α : Type} (old : List α) (fresh : List (Option α))
    (i : Nat) (d : α) (h1 : i < old.length) (h2 : i < fresh.length) :
    (mergeField old fresh).getD i d =
      (fresh.getD i none).getD (old.getD i d) := by
  have hlen : i < (mergeField old fresh).length := by
    rw [mergeField_length]
    exact lt_min h1 h2
  rw [List.getD_eq_getElem _ _ hlen, List.getD_eq_getElem _ _ h1,
    List.getD_eq_getElem _ _ h2]
  simp [mergeField]

/-- Shared helper: the dispatch primitive satisfies the acknowledgment
contract for every command, flag and timeout. -/
theorem sendCommand_ackContract (env : Env) (timeoutMs : Nat) (cmd : Command)
    (ackSend : Bool) :
    ackContract env timeoutMs cmd ackSend (sendCommand env cmd ackSend timeoutMs) := by
  constructor
  · intro ha hr
    subst ha
    have hand : (env.accepted cmd && env.ackWithin cmd timeoutMs) = true := by
      simpa [sendCommand] using hr
    exact (Bool.and_eq_true _ _).mp hand |>.2
  · intro ha
    subst ha
    simp [sendCommand]

/-- Concrete state used by witnesses: button 3 freshly pressed, everything
else as after construction. -/
def sampleState : MobileIOState :=
  { buttons := [false, false, true, false, false, false, false, false]
    axes := List.replicate NumButtons (F32.val 0)
    prev_buttons := List.replicate NumButtons false
    prev_axes := List.replicate NumButtons (F32.val 0)
    fbk := emptyFeedback
    buttons_len := rfl
    axes_len := rfl
    prev_buttons_len := rfl
    prev_axes_len := rfl }

/-- Concrete feedback used by witnesses: some fields present, some absent. -/
def sampleFeedback : Feedback :=
  { digital := [some true, none, some false, none, none, none, none, none]
    analog := [none, some F32.nan, none, none, none, none, none,
      some (F32.val 2)]
    arPosition := (F32.val 0, F32.val 0, F32.val 0)
    arOrientation := (F32.val 0, F32.val 0, F32.val 0, F32.val 0)
    digital_len := rfl
    analog_len := rfl }

/-- Concrete environment used by witnesses: every send accepted and
acknowledged, no readable layout resource. -/
def noFileEnv : Env :=
  { accepted := fun _ => true
    ackWithin := fun _ _ => true
    readFile := fun _ => none
    defaultTimeoutMs := 500 }

/-- Claim C2: if update times out or receives no feedback it returns false
and both the current and the previous snapshot, all button bits and all axis
values, are exactly as they were before the call; neither snapshot is
mutated even in part. -/
theorem update_timeout_frame (st : MobileIOState) :
    (update st none).1 = false ∧
    (update st none).2.buttons = st.buttons ∧
    (update st none).2.axes = st.axes ∧
    (update st none).2.prev_buttons = st.prev_buttons ∧
    (update st none).2.prev_axes = st.prev_axes ∧
    (update st none).2 = st :=
  ⟨rfl, rfl, rfl, rfl, rfl, rfl⟩

/-- Claim C8: the button count and the axis count are the same compile time
constant NumButtons = 8; the button bit vector and the axis array of both
snapshots always have exactly that length, and update preserves the
lengths. -/
theorem snapshot_lengths (st : MobileIOState) :
    NumButtons = 8 ∧
    st.buttons.length = NumButtons ∧
    st.axes.length = NumButtons ∧
    st.prev_buttons.length = NumButtons ∧
    st.prev_axes.length = NumButtons ∧
    ∀ received : Option Feedback,
      (update st received).2.buttons.length = NumButtons ∧
      (update st received).2.axes.length = NumButtons ∧
      (update st received).2.prev_buttons.length = NumButtons ∧
      (update st received).2.prev_axes.length = NumButtons := by
  refine ⟨rfl, st.buttons_len, st.axes_len, st.prev_buttons_len,
    st.prev_axes_len, ?_⟩
  intro received
  exact ⟨(update st received).2.buttons_len, (update st received).2.axes_len,
    (update st received).2.prev_buttons_len, (update st received).2.prev_axes_len⟩

/-- Claim C10: every read only query and both layout sends leave the state
cache, the two snapshots and the stored feedback, completely unchanged. -/
theorem const_ops_frame (st : MobileIOState) (env : Env) (n : Nat)
    (layoutFile buffer : String) (timeoutMs : Nat) :
    (getAxis st n).2 = st ∧
    (getButton st n).2 = st ∧
    (getButtonDiff st n).2 = st ∧
    (getLastFeedback st).2 = st ∧
    (getArPosition st).2 = st ∧
    (getArOrientation st).2 = st ∧
    (sendLayout env st layoutFile timeoutMs).2 = st ∧
    (sendLayoutBuffer env st buffer timeoutMs).2 = st := by
  refine ⟨rfl, rfl, rfl, rfl, rfl, rfl, ?_, rfl⟩
  unfold sendLayout
  cases env.readFile layoutFile <;> rfl

/-- Claim C5: disableAxisSnap is exactly setAxisSnap at the NaN sentinel: for
every axis number and acknowledge flag the two calls agree, and the single
command they transmit has the snap field of that axis set to NaN and every
other field untouched. -/
theorem disableAxisSnap_eq_setAxisSnap_nan (env : Env) (axis : Nat)
    (ackSend : Bool) :
    disableAxisSnap env axis ackSend = setAxisSnap env axis F32.nan ackSend ∧
    (disableAxisSnap env axis ackSend).1 = (setAxisSnap env axis F32.nan ackSend).1 ∧
    (setAxisSnap env axis F32.nan ackSend).2 = [axisSnapCmd axis F32.nan] ∧
    (axisSnapCmd axis F32.nan).axisSnap = some (axis, F32.nan) ∧
    (axisSnapCmd axis F32.nan).axisValue = none ∧
    (axisSnapCmd axis F32.nan).axisLabel = none ∧
    (axisSnapCmd axis F32.nan).buttonMode = none ∧
    (axisSnapCmd axis F32.nan).buttonLed = none ∧
    (axisSnapCmd axis F32.nan).buttonLabel = none ∧
    (axisSnapCmd axis F32.nan).ledColor = none ∧
    (axisSnapCmd axis F32.nan).appendedText = none ∧
    (axisSnapCmd axis F32.nan).clearTextFlag = false ∧
    (axisSnapCmd axis F32.nan).resetUIFlag = false ∧
    (axisSnapCmd axis F32.nan).layout = none :=
  ⟨rfl, rfl, rfl, rfl, rfl, rfl, rfl, rfl, rfl, rfl, rfl, rfl, rfl, rfl⟩

/-- Claim C1: for every button index i in 1..N, in a state whose current
snapshot is b1 and whose previous snapshot is b0, getButtonDiff i is ToOn iff
the bit rose, ToOff iff it fell, Unchanged iff it is equal in the two
snapshots; and the result is a pure function of only the two latest
snapshots. -/
theorem getButtonDiff_spec (st : MobileIOState) (i : Nat)
    (h1 : 1 ≤ i) (h2 : i ≤ NumButtons) :
    ((getButtonDiff st i).1 = ButtonState.ToOn ↔
      (st.prev_buttons.getD (i - 1) false = false ∧
       st.buttons.getD (i - 1) false = true)) ∧
    ((getButtonDiff st i).1 = ButtonState.ToOff ↔
      (st.prev_buttons.getD (i - 1) false = true ∧
       st.buttons.getD (i - 1) false = false)) ∧
    ((getButtonDiff st i).1 = ButtonState.Unchanged ↔
      st.prev_buttons.getD (i - 1) false = st.buttons.getD (i - 1) false) ∧
    ∀ st2 : MobileIOState, st2.buttons = st.buttons →
      st2.prev_buttons = st.prev_buttons →
      (getButtonDiff st2 i).1 = (getButtonDiff st i).1 := by
  have hdiff : ∀ s : MobileIOState, (getButtonDiff s i).1 =
      (if s.prev_buttons.getD (i - 1) false = s.buttons.getD (i - 1) false
       then ButtonState.Unchanged
       else if s.buttons.getD (i - 1) false = true then ButtonState.ToOn
       else ButtonState.ToOff) := fun _ => rfl
  refine ⟨?_, ?_, ?_, ?_⟩
  · rw [hdiff st]
    cases hc : st.buttons.getD (i - 1) false <;>
      cases hp : st.prev_buttons.getD (i - 1) false <;> decide
  · rw [hdiff st]
    cases hc : st.buttons.getD (i - 1) false <;>
      cases hp : st.prev_buttons.getD (i - 1) false <;> decide
  · rw [hdiff st]
    cases hc : st.buttons.getD (i - 1) false <;>
      cases hp : st.prev_buttons.getD (i - 1) false <;> decide
  · intro st2 hb hpb
    rw [hdiff st, hdiff st2, hb, hpb]

/-- Witness for claim C1 at button 3 of the sample state, whose bit just
rose. -/
theorem getButtonDiff_spec_witness :
    (1 ≤ 3 ∧ 3 ≤ NumButtons) ∧
    (getButtonDiff sampleState 3).1 = ButtonState.ToOn :=
  ⟨⟨by decide, by decide⟩,
   ((getButtonDiff_spec sampleState 3 (by decide) (by decide)).1).mpr
     ⟨rfl, rfl⟩⟩

/-- Claim C3: on a successful poll, update returns true, the whole current
snapshot has been copied into previous, the received feedback is stored, and
each current entry is overwritten from the corresponding named feedback field
when present and left unchanged when the field is absent. -/
theorem update_success_spec (st : MobileIOState) (f : Feedback) :
    (update st (some f)).1 = true ∧
    (update st (some f)).2.prev_buttons = st.buttons ∧
    (update st (some f)).2.prev_axes = st.axes ∧
    (update st (some f)).2.fbk = f ∧
    ∀ i : Nat, i < NumButtons →
      (f.digital.getD i none = none →
        (update st (some f)).2.buttons.getD i false = st.buttons.getD i false) ∧
      (∀ b : Bool, f.digital.getD i none = some b →
        (update st (some f)).2.buttons.getD i false = b) ∧
      (f.analog.getD i none = none →
        (update st (some f)).2.axes.getD i F32.nan = st.axes.getD i F32.nan) ∧
      (∀ v : F32, f.analog.getD i none = some v →
        (update st (some f)).2.axes.getD i F32.nan = v) := by
  refine ⟨rfl, rfl, rfl, rfl, ?_⟩
  intro i hi
  have hb : i < st.buttons.length := by rw [st.buttons_len]; exact hi
  have hdg : i < f.digital.length := by rw [f.digital_len]; exact hi
  have hax : i < st.axes.length := by rw [st.axes_len]; exact hi
  have han : i < f.analog.length := by rw [f.analog_len]; exact hi
  have key1 : (update st (some f)).2.buttons.getD i false =
      (f.digital.getD i none).getD (st.buttons.getD i false) :=
    mergeField_getD st.buttons f.digital i false hb hdg
  have key2 : (update st (some f)).2.axes.getD i F32.nan =
      (f.analog.getD i none).getD (st.axes.getD i F32.nan) :=
    mergeField_getD st.axes f.analog i F32.nan hax han
  refine ⟨?_, ?_, ?_, ?_⟩
  · intro hnone; rw [key1, hnone]; rfl
  · intro b hsome; rw [key1, hsome]; rfl
  · intro hnone; rw [key2, hnone]; rfl
  · intro v hsome; rw [key2, hsome]; rfl

/-- Witness for claim C3 at the initial state and the sample feedback:
update succeeds, a present digital field overwrites button 1, an absent
analog field leaves axis 3 unchanged. -/
theorem update_success_spec_witness :
    (update init (some sampleFeedback)).1 = true ∧
    (update init (some sampleFeedback)).2.buttons.getD 0 false = true ∧
    (update init (some sampleFeedback)).2.axes.getD 2 F32.nan =
      init.axes.getD 2 F32.nan :=
  ⟨(update_success_spec init sampleFeedback).1,
   ((update_success_spec init sampleFeedback).2.2.2.2 0 (by decide)).2.1
     true rfl,
   ((update_success_spec init sampleFeedback).2.2.2.2 2 (by decide)).2.2.1
     rfl⟩

/-- Claim C4: every command sending operation obeys the acknowledgment
contract: with acknowledge_send true it returns true only if the
acknowledgment arrived within the timeout, with acknowledge_send false it
returns true exactly when the message was accepted for transmission. -/
theorem command_send_ack_contract (env : Env) (axis button r g b : Nat)
    (value snapTo : F32) (message : String) (mode : ButtonMode)
    (ledOn ackSend : Bool) :
    ackContract env env.defaultTimeoutMs (axisValueCmd axis value) ackSend
      (setAxisValue env axis value ackSend).1 ∧
    ackContract env env.defaultTimeoutMs (axisSnapCmd axis snapTo) ackSend
      (setAxisSnap env axis snapTo ackSend).1 ∧
    ackContract env env.defaultTimeoutMs (axisLabelCmd axis message) ackSend
      (setAxisLabel env axis message ackSend).1 ∧
    ackContract env env.defaultTimeoutMs (buttonModeCmd button mode) ackSend
      (setButtonMode env button mode ackSend).1 ∧
    ackContract env env.defaultTimeoutMs (buttonLedCmd button ledOn) ackSend
      (setButtonLed env button ledOn ackSend).1 ∧
    ackContract env env.defaultTimeoutMs (buttonLabelCmd button message) ackSend
      (setButtonLabel env button message ackSend).1 ∧
    ackContract env env.defaultTimeoutMs (ledColorCmd r g b) ackSend
      (setLedColor env r g b ackSend).1 ∧
    ackContract env env.defaultTimeoutMs (appendTextCmd message) ackSend
      (appendText env message ackSend).1 ∧
    ackContract env env.defaultTimeoutMs clearTextCmd ackSend
      (clearText env ackSend).1 ∧
    ackContract env env.defaultTimeoutMs resetUICmd ackSend
      (resetUI env ackSend).1 :=
  ⟨sendCommand_ackContract env env.defaultTimeoutMs _ ackSend,
   sendCommand_ackContract env env.defaultTimeoutMs _ ackSend,
   sendCommand_ackContract env env.defaultTimeoutMs _ ackSend,
   sendCommand_ackContract env env.defaultTimeoutMs _ ackSend,
   sendCommand_ackContract env env.defaultTimeoutMs _ ackSend,
   sendCommand_ackContract env env.defaultTimeoutMs _ ackSend,
   sendCommand_ackContract env env.defaultTimeoutMs _ ackSend,
   sendCommand_ackContract env env.defaultTimeoutMs _ ackSend,
   sendCommand_ackContract env env.defaultTimeoutMs _ ackSend,
   sendCommand_ackContract env env.defaultTimeoutMs _ ackSend⟩

/-- Witness for claim C4 at a concrete environment and a fire and forget
setAxisValue call. -/
theorem command_send_ack_contract_witness :
    ackContract noFileEnv noFileEnv.defaultTimeoutMs (axisValueCmd 1 (F32.val 0))
      false (setAxisValue noFileEnv 1 (F32.val 0) false).1 :=
  (command_send_ack_contract noFileEnv 1 2 0 0 0 (F32.val 0) F32.nan "label"
    ButtonMode.Momentary true false).1

/-- Claim C6: one indexing is enforced at the accessor boundary: N is 8 and
for every n in 1..N, getAxis and getButton read the current snapshot at
internal index n - 1. -/
theorem one_indexed_accessors :
    NumButtons = 8 ∧
    ∀ (st : MobileIOState) (n : Nat), 1 ≤ n → n ≤ NumButtons →
      st.axes[n - 1]? = some (getAxis st n).1 ∧
      st.buttons[n - 1]? = some (getButton st n).1 := by
  refine ⟨rfl, ?_⟩
  intro st n h1 h2
  have hax : n - 1 < st.axes.length := by rw [st.axes_len]; omega
  have hbt : n - 1 < st.buttons.length := by rw [st.buttons_len]; omega
  constructor
  · have hv : (getAxis st n).1 = st.axes[n - 1] :=
      List.getD_eq_getElem st.axes F32.nan hax
    rw [hv, List.getElem?_eq_getElem hax]
  · have hv : (getButton st n).1 = st.buttons[n - 1] :=
      List.getD_eq_getElem st.buttons false hbt
    rw [hv, List.getElem?_eq_getElem hbt]

/-- Witness for claim C6 at the initial state and index 1, which reads
internal index 0. -/
theorem one_indexed_accessors_witness :
    init.axes[0]? = some (getAxis init 1).1 ∧
    init.buttons[0]? = some (getButton init 1).1 :=
  one_indexed_accessors.2 init 1 (by decide) (by decide)

/-- Claim C7: before the first successful update both snapshots are the same
zero initialized snapshot: every axis is 0 and every button false, a failed
poll keeps it that way, and every accessor reads zero, false and Unchanged
for n in 1..N. -/
theorem initial_state_spec :
    init.buttons = init.prev_buttons ∧
    init.axes = init.prev_axes ∧
    (update init none).2 = init ∧
    (∀ i : Nat, i < NumButtons →
      init.buttons.getD i false = false ∧
      init.axes.getD i F32.nan = F32.val 0) ∧
    ∀ n : Nat, 1 ≤ n → n ≤ NumButtons →
      (getAxis init n).1 = F32.val 0 ∧
      (getButton init n).1 = false ∧
      (getButtonDiff init n).1 = ButtonState.Unchanged := by
  refine ⟨rfl, rfl, rfl, by decide, ?_⟩
  intro n h1 h2
  have h8 : n ≤ 8 := h2
  interval_cases n <;> exact ⟨rfl, rfl, rfl⟩

/-- Witness for claim C7 at button and axis 3 of the initial state. -/
theorem initial_state_spec_witness :
    (getAxis init 3).1 = F32.val 0 ∧
    (getButton init 3).1 = false ∧
    (getButtonDiff init 3).1 = ButtonState.Unchanged :=
  initial_state_spec.2.2.2.2 3 (by decide) (by decide)

/-- Claim C9: sendLayout fails fast when the layout resource cannot be read,
returning false with no send attempted; when the resource is readable it
performs an acknowledgment required send of the layout payload bounded by
the timeout, under the same acknowledgment contract as other sends. -/
theorem sendLayout_failfast (env : Env) (st : MobileIOState)
    (layoutFile : String) (timeoutMs : Nat) :
    (env.readFile layoutFile = none →
      sendLayout env st layoutFile timeoutMs = ((false, []), st)) ∧
    ∀ buf : String, env.readFile layoutFile = some buf →
      sendLayout env st layoutFile timeoutMs =
        ((sendCommand env (layoutCmd buf) true timeoutMs, [layoutCmd buf]), st) ∧
      ackContract env timeoutMs (layoutCmd buf) true
        (sendLayout env st layoutFile timeoutMs).1.1 := by
  constructor
  · intro h
    simp [sendLayout, h]
  · intro buf h
    have heq : sendLayout env st layoutFile timeoutMs =
        ((sendCommand env (layoutCmd buf) true timeoutMs, [layoutCmd buf]), st) := by
      simp [sendLayout, h, sendLayoutBuffer]
    refine ⟨heq, ?_⟩
    rw [heq]
    exact sendCommand_ackContract env timeoutMs (layoutCmd buf) true

/-- Witness for claim C9 at an environment with no readable layout
resource. -/
theorem sendLayout_failfast_witness :
    sendLayout noFileEnv init "layout.json" 100 = ((false, []), init) :=
  (sendLayout_failfast noFileEnv init "layout.json" 100).1 rfl

end HebiMobile
